import Mathlib

/-!
Verification of the optimistic multi-file edit/publish pipeline of the
repository (frontend of a dashboarding tool).

The development shallowly embeds:
* `replaceNegativeIdsInContent` — the Reference Rewriter from
  `src/frontend/lib/data/helpers/replace-references.ts`, translated line by
  line, including JavaScript's truthiness check on `idMap[x]` and the string
  coercion of object property keys (a numeric map key matches a string id
  exactly when the string is the canonical decimal rendering of the key);
* the content validators `validateContent`/`validateFileState` appended to
  `src/frontend/store/__tests__/editFile.test.ts` (the underlying generated
  JSON schema is not among the sources and is modelled from the spec);
* the publish orchestrator `publishAll`, whose implementation
  (`file-state.ts`) is not among the sources — it is modelled from the
  spec (§4.4) and from the behaviour pinned down by
  `src/frontend/store/__tests__/publishAllE2E.test.ts`;
* the batch-create / batch-save API route handlers
  (`src/unnamed/part_004`, `src/frontend/app/api/files/batch-save/route.ts`).
-/

namespace Minusx

/-- A JavaScript id value as it appears in a reference field: either a number
or a string (some UI mutation paths stringify ids before storing them). -/
inductive JsId where
  | num (n : Int)
  | str (s : String)
deriving DecidableEq, Repr

/-- Decimal digit test. -/
def isDigitCh (c : Char) : Bool :=
  '0' ≤ c && c ≤ '9'

/-- Numeric value of a digit string (most significant first). -/
def digitsVal (ds : List Char) : Nat :=
  ds.foldl (fun a c => a * 10 + (c.toNat - '0'.toNat)) 0

/-- Parse a string that is the *canonical* decimal rendering of an integer
(as produced by JavaScript's `String(n)`): nonempty digits, no leading zero
except for `"0"` itself, an optional leading minus for a nonzero value. -/
def canonParse (s : String) : Option Int :=
  match s.data with
  | [] => none
  | '-' :: ds =>
    if ds.all isDigitCh ∧ ds ≠ [] ∧ ds.head? ≠ some '0' then
      some (-(digitsVal ds : Int))
    else none
  | ds =>
    if ds.all isDigitCh ∧ (ds.head? ≠ some '0' ∨ ds = ['0']) then
      some (digitsVal ds)
    else none

/-- The integer key a JavaScript object-property access with this id would
reach in an object keyed by numbers: property keys are strings, a numeric key
`n` is stored under the canonical decimal string of `n`, so a string id
matches exactly when it equals that canonical rendering. -/
def canonKey : JsId → Option Int
  | .num n => some n
  | .str s => canonParse s

/-- Association-list lookup for the `idMap : Record<number, number>`. -/
def mapLookup : List (Int × Int) → Int → Option Int
  | [], _ => none
  | (k, v) :: rest, x => if x = k then some v else mapLookup rest x

/-- `idMap[k]` used as a condition: the access is truthy exactly when the key
is present and its value is nonzero (0 is falsy in JavaScript). -/
def jsTruthyLookup (m : List (Int × Int)) (k : Int) : Option Int :=
  match mapLookup m k with
  | some v => if v = 0 then none else some v
  | none => none

/-- `idMap[j]` for a number-or-string id `j`. -/
def jsLookupId (m : List (Int × Int)) (j : JsId) : Option Int :=
  match canonKey j with
  | some k => jsTruthyLookup m k
  | none => none

/-- `idMap[j]` where the field may be absent (`undefined` indexes miss). -/
def jsLookupOptId (m : List (Int × Int)) : Option JsId → Option Int
  | some j => jsLookupId m j
  | none => none

/-- An `assets[]` entry `{type, id, ...}`; `data` stands for the remaining
fields, which object spread `{...a, id}` preserves. -/
structure Asset where
  atype : String
  id : Option JsId
  data : String
deriving DecidableEq, Repr

/-- A `layout.items[]` entry `{id, x, y, w, h, ...}`. -/
structure LayoutItem where
  id : JsId
  x : Int
  y : Int
  w : Int
  h : Int
  data : String
deriving DecidableEq, Repr

/-- `layout: {columns, items}`. -/
structure Layout where
  columns : Option Int
  items : Option (List LayoutItem)
deriving DecidableEq, Repr

/-- The inner `{reference: {id, ...}}` object of a report reference entry. -/
structure InnerRef where
  id : Option JsId
  data : String
deriving DecidableEq, Repr

/-- A `references[]` entry; question references carry `id` directly, report
references carry a nested `reference` object. -/
structure RefEntry where
  id : Option JsId
  reference : Option InnerRef
  data : String
deriving DecidableEq, Repr

/-- `BaseFileContent`: the reference-bearing fields of a document's content
(each optional — absent fields are `undefined` in the source), plus
`description` as a representative scalar field. -/
structure BaseFileContent where
  description : Option String
  assets : Option (List Asset)
  layout : Option Layout
  references : Option (List RefEntry)
  questionId : Option JsId
deriving DecidableEq, Repr

/-- `FileType`: the document kinds the rewriter distinguishes, plus `folder`
for kinds outside the fixed table. -/
inductive FileType where
  | question
  | dashboard
  | presentation
  | notebook
  | report
  | alert
  | folder
deriving DecidableEq, Repr

/-- The asset rewrite step:
`a.type === 'question' && idMap[a.id] ? { ...a, id: idMap[a.id] } : a`. -/
def rewriteAsset (m : List (Int × Int)) (a : Asset) : Asset :=
  if a.atype = "question" then
    match jsLookupOptId m a.id with
    | some v => { a with id := some (JsId.num v) }
    | none => a
  else a

/-- The layout item rewrite step:
`idMap[item.id] ? { ...item, id: idMap[item.id] } : item`. -/
def rewriteItem (m : List (Int × Int)) (it : LayoutItem) : LayoutItem :=
  match jsLookupId m it.id with
  | some v => { it with id := JsId.num v }
  | none => it

/-- The question reference rewrite step:
`idMap[ref.id] ? { ...ref, id: idMap[ref.id] } : ref`. -/
def rewriteQRef (m : List (Int × Int)) (r : RefEntry) : RefEntry :=
  match jsLookupOptId m r.id with
  | some v => { r with id := some (JsId.num v) }
  | none => r

/-- The report reference rewrite step:
`r.reference && idMap[r.reference.id] ? { ...r, reference: { ...r.reference, id: idMap[r.reference.id] } } : r`. -/
def rewriteRepRef (m : List (Int × Int)) (r : RefEntry) : RefEntry :=
  match r.reference with
  | some ir =>
    match jsLookupOptId m ir.id with
    | some v => { r with reference := some { ir with id := some (JsId.num v) } }
    | none => r
  | none => r

/-- `replaceNegativeIdsInContent(content, type, idMap)` from
`src/frontend/lib/data/helpers/replace-references.ts`, translated branch by
branch.  The `JSON.parse(JSON.stringify(content))` clone is the identity on
the value level; the four `if (type === ...)` blocks are applied in source
order. -/
def replaceNegativeIdsInContent (content : BaseFileContent) (type : FileType)
    (idMap : List (Int × Int)) : BaseFileContent :=
  let c1 :=
    if type = .dashboard ∨ type = .presentation ∨ type = .notebook then
      -- cloned.assets = (cloned.assets || []).map(...)
      let withAssets :=
        { content with assets := some ((content.assets.getD []).map (rewriteAsset idMap)) }
      -- if (cloned.layout?.items) { cloned.layout = { ...cloned.layout, items: ... } }
      match withAssets.layout with
      | some l =>
        match l.items with
        | some its =>
          { withAssets with layout := some { l with items := some (its.map (rewriteItem idMap)) } }
        | none => withAssets
      | none => withAssets
    else content
  let c2 :=
    if type = .question then
      match c1.references with
      | some rs => { c1 with references := some (rs.map (rewriteQRef idMap)) }
      | none => c1
    else c1
  let c3 :=
    if type = .report then
      match c2.references with
      | some rs => { c2 with references := some (rs.map (rewriteRepRef idMap)) }
      | none => c2
    else c2
  if type = .alert then
    match jsLookupOptId idMap c3.questionId with
    | some v => { c3 with questionId := some (JsId.num v) }
    | none => c3
  else c3

/-! ### Spec-side reference table (claim vocabulary for C1)

The spec states the substitution in terms of *key membership* in `idMap`
("whenever the field's id is a key of `idMap`"), with no truthiness caveat.
The following definitions restate the fixed per-kind table in those words;
`C1` proves the source function refines them whenever `idMap` maps to real
(positive) ids. -/

/-- Membership-based lookup: the mapped value whenever the id's canonical key
is a key of `idMap`. -/
def specLookupId (m : List (Int × Int)) (j : JsId) : Option Int :=
  match canonKey j with
  | some k => mapLookup m k
  | none => none

/-- Membership-based lookup for a possibly absent id field. -/
def specLookupOptId (m : List (Int × Int)) : Option JsId → Option Int
  | some j => specLookupId m j
  | none => none

/-- Spec table, `assets[].id` guarded by `type == 'question'`: substitute the
mapped real id when the id is a key of `idMap`, otherwise leave the entry
unchanged. -/
def specAssetStep (m : List (Int × Int)) (a : Asset) : Asset :=
  if a.atype = "question" then
    match specLookupOptId m a.id with
    | some v => { a with id := some (JsId.num v) }
    | none => a
  else a

/-- Spec table, `layout.items[].id`. -/
def specItemStep (m : List (Int × Int)) (it : LayoutItem) : LayoutItem :=
  match specLookupId m it.id with
  | some v => { it with id := JsId.num v }
  | none => it

/-- Spec table, question `references[].id`. -/
def specQRefStep (m : List (Int × Int)) (r : RefEntry) : RefEntry :=
  match specLookupOptId m r.id with
  | some v => { r with id := some (JsId.num v) }
  | none => r

/-- Spec table, report `references[].reference.id`. -/
def specRepRefStep (m : List (Int × Int)) (r : RefEntry) : RefEntry :=
  match r.reference with
  | some ir =>
    match specLookupOptId m ir.id with
    | some v => { r with reference := some { ir with id := some (JsId.num v) } }
    | none => r
  | none => r

/-- Spec table, the `layout` field as a whole: rewrite each item's id,
leaving the grid's other fields (`columns`) and an absent `layout`/`items`
untouched. -/
def specLayoutRewrite (m : List (Int × Int)) : Option Layout → Option Layout
  | none => none
  | some l => some { l with items := l.items.map (fun its => its.map (specItemStep m)) }

/-- Spec table, the `alert` `questionId` scalar. -/
def specScalarStep (m : List (Int × Int)) (oj : Option JsId) : Option JsId :=
  match specLookupOptId m oj with
  | some v => some (JsId.num v)
  | none => oj

/-- When every value of `idMap` is positive (a real id), the truthy lookup is
plain key membership. -/
theorem jsTruthyLookup_eq_mapLookup (m : List (Int × Int)) (k : Int)
    (hpos : ∀ p ∈ m, 0 < p.2) : jsTruthyLookup m k = mapLookup m k := by
  induction m with
  | nil => rfl
  | cons hd tl ih =>
    simp only [jsTruthyLookup, mapLookup] at *
    by_cases hk : k = hd.1
    · have : (0:Int) < hd.2 := hpos hd (by simp)
      simp [hk]
      omega
    · have := ih (fun p hp => hpos p (List.mem_cons_of_mem _ hp))
      simp only [jsTruthyLookup] at this
      simp [hk, this]

theorem jsLookupId_eq_specLookupId (m : List (Int × Int)) (j : JsId)
    (hpos : ∀ p ∈ m, 0 < p.2) : jsLookupId m j = specLookupId m j := by
  unfold jsLookupId specLookupId
  cases canonKey j with
  | none => rfl
  | some k => exact jsTruthyLookup_eq_mapLookup m k hpos

theorem jsLookupOptId_eq_specLookupOptId (m : List (Int × Int)) (oj : Option JsId)
    (hpos : ∀ p ∈ m, 0 < p.2) : jsLookupOptId m oj = specLookupOptId m oj := by
  cases oj with
  | none => rfl
  | some j => exact jsLookupId_eq_specLookupId m j hpos

theorem rewriteAsset_eq_spec (m : List (Int × Int)) (hpos : ∀ p ∈ m, 0 < p.2)
    (a : Asset) : rewriteAsset m a = specAssetStep m a := by
  unfold rewriteAsset specAssetStep
  rw [jsLookupOptId_eq_specLookupOptId m a.id hpos]

theorem rewriteItem_eq_spec (m : List (Int × Int)) (hpos : ∀ p ∈ m, 0 < p.2)
    (it : LayoutItem) : rewriteItem m it = specItemStep m it := by
  unfold rewriteItem specItemStep
  rw [jsLookupId_eq_specLookupId m it.id hpos]

theorem rewriteQRef_eq_spec (m : List (Int × Int)) (hpos : ∀ p ∈ m, 0 < p.2)
    (r : RefEntry) : rewriteQRef m r = specQRefStep m r := by
  unfold rewriteQRef specQRefStep
  rw [jsLookupOptId_eq_specLookupOptId m r.id hpos]

theorem rewriteRepRef_eq_spec (m : List (Int × Int)) (hpos : ∀ p ∈ m, 0 < p.2)
    (r : RefEntry) : rewriteRepRef m r = specRepRefStep m r := by
  cases hir : r.reference with
  | none => simp [rewriteRepRef, specRepRefStep, hir]
  | some ir =>
    simp [rewriteRepRef, specRepRefStep, hir,
      jsLookupOptId_eq_specLookupOptId m ir.id hpos]

/-- **C1.** For every content object, document type, and `idMap` whose values
are real (positive) ids, `replaceNegativeIdsInContent` replaces exactly the
reference fields of the fixed per-kind table — dashboard/presentation/
notebook: `assets[].id` guarded by `type == 'question'` and
`layout.items[].id`; question: `references[].id`; report:
`references[].reference.id`; alert: the `questionId` scalar — substituting
the mapped real id whenever the field's id is a key of `idMap` (per the
`spec*Step` table), every reference whose id is not a key of `idMap` passing
through unchanged (the `else` branch of each step), and all fields outside
the kind's table row left unchanged. -/
theorem C1_fixed_reference_table (c : BaseFileContent) (t : FileType)
    (m : List (Int × Int)) (hpos : ∀ p ∈ m, 0 < p.2) :
    ((t = .dashboard ∨ t = .presentation ∨ t = .notebook) →
      (replaceNegativeIdsInContent c t m).assets
          = some ((c.assets.getD []).map (specAssetStep m)) ∧
      (replaceNegativeIdsInContent c t m).layout = specLayoutRewrite m c.layout ∧
      (replaceNegativeIdsInContent c t m).references = c.references ∧
      (replaceNegativeIdsInContent c t m).questionId = c.questionId ∧
      (replaceNegativeIdsInContent c t m).description = c.description) ∧
    (t = .question →
      (replaceNegativeIdsInContent c t m).references
          = c.references.map (fun rs => rs.map (specQRefStep m)) ∧
      (replaceNegativeIdsInContent c t m).assets = c.assets ∧
      (replaceNegativeIdsInContent c t m).layout = c.layout ∧
      (replaceNegativeIdsInContent c t m).questionId = c.questionId ∧
      (replaceNegativeIdsInContent c t m).description = c.description) ∧
    (t = .report →
      (replaceNegativeIdsInContent c t m).references
          = c.references.map (fun rs => rs.map (specRepRefStep m)) ∧
      (replaceNegativeIdsInContent c t m).assets = c.assets ∧
      (replaceNegativeIdsInContent c t m).layout = c.layout ∧
      (replaceNegativeIdsInContent c t m).questionId = c.questionId ∧
      (replaceNegativeIdsInContent c t m).description = c.description) ∧
    (t = .alert →
      (replaceNegativeIdsInContent c t m).questionId = specScalarStep m c.questionId ∧
      (replaceNegativeIdsInContent c t m).assets = c.assets ∧
      (replaceNegativeIdsInContent c t m).layout = c.layout ∧
      (replaceNegativeIdsInContent c t m).references = c.references ∧
      (replaceNegativeIdsInContent c t m).description = c.description) := by
  have hA := rewriteAsset_eq_spec m hpos
  have hI := rewriteItem_eq_spec m hpos
  have hQ := rewriteQRef_eq_spec m hpos
  have hR := rewriteRepRef_eq_spec m hpos
  have hS : ∀ oj, jsLookupOptId m oj = specLookupOptId m oj :=
    fun oj => jsLookupOptId_eq_specLookupOptId m oj hpos
  cases t with
  | dashboard =>
    refine ⟨fun _ => ?_, by simp, by simp, by simp⟩
    unfold replaceNegativeIdsInContent specLayoutRewrite
    cases hl : c.layout with
    | none =>
      simp [hl, List.map_congr_left (fun a _ => hA a)]
    | some l =>
      cases hi : l.items with
      | none =>
        simp [hl, hi, List.map_congr_left (fun a _ => hA a)]
        cases l
        simp_all
      | some its =>
        simp [hl, hi, List.map_congr_left (fun a _ => hA a),
          List.map_congr_left (fun it _ => hI it)]
  | presentation =>
    refine ⟨fun _ => ?_, by simp, by simp, by simp⟩
    unfold replaceNegativeIdsInContent specLayoutRewrite
    cases hl : c.layout with
    | none =>
      simp [hl, List.map_congr_left (fun a _ => hA a)]
    | some l =>
      cases hi : l.items with
      | none =>
        simp [hl, hi, List.map_congr_left (fun a _ => hA a)]
        cases l
        simp_all
      | some its =>
        simp [hl, hi, List.map_congr_left (fun a _ => hA a),
          List.map_congr_left (fun it _ => hI it)]
  | notebook =>
    refine ⟨fun _ => ?_, by simp, by simp, by simp⟩
    unfold replaceNegativeIdsInContent specLayoutRewrite
    cases hl : c.layout with
    | none =>
      simp [hl, List.map_congr_left (fun a _ => hA a)]
    | some l =>
      cases hi : l.items with
      | none =>
        simp [hl, hi, List.map_congr_left (fun a _ => hA a)]
        cases l
        simp_all
      | some its =>
        simp [hl, hi, List.map_congr_left (fun a _ => hA a),
          List.map_congr_left (fun it _ => hI it)]
  | question =>
    refine ⟨by simp, fun _ => ?_, by simp, by simp⟩
    unfold replaceNegativeIdsInContent
    cases hr : c.references with
    | none => simp [hr]
    | some rs => simp [hr, List.map_congr_left (fun r _ => hQ r)]
  | report =>
    refine ⟨by simp, by simp, fun _ => ?_, by simp⟩
    unfold replaceNegativeIdsInContent
    cases hr : c.references with
    | none => simp [hr]
    | some rs => simp [hr, List.map_congr_left (fun r _ => hR r)]
  | alert =>
    refine ⟨by simp, by simp, by simp, fun _ => ?_⟩
    cases hq : specLookupOptId m c.questionId <;>
      simp [replaceNegativeIdsInContent, specScalarStep, hS, hq]
  | folder =>
    exact ⟨by simp, by simp, by simp, by simp⟩

/-- Witness for C1: a dashboard whose assets and layout reference the virtual
id −5 (the layout as a string), with `idMap = {−5 ↦ 501}`. -/
theorem C1_fixed_reference_table_witness :
    (∀ p ∈ [((-5 : Int), (501 : Int))], 0 < p.2) ∧
    (replaceNegativeIdsInContent
        ⟨some "d", some [⟨"question", some (JsId.num (-5)), "a"⟩],
         some ⟨some 12, some [⟨JsId.str "-5", 0, 0, 6, 4, "i"⟩]⟩, none, none⟩
        .dashboard [((-5 : Int), (501 : Int))]).assets
      = some ((((⟨some "d", some [⟨"question", some (JsId.num (-5)), "a"⟩],
         some ⟨some 12, some [⟨JsId.str "-5", 0, 0, 6, 4, "i"⟩]⟩, none, none⟩
          : BaseFileContent).assets).getD []).map
            (specAssetStep [((-5 : Int), (501 : Int))])) :=
  ⟨by decide,
   ((C1_fixed_reference_table
      ⟨some "d", some [⟨"question", some (JsId.num (-5)), "a"⟩],
       some ⟨some 12, some [⟨JsId.str "-5", 0, 0, 6, 4, "i"⟩]⟩, none, none⟩
      .dashboard [((-5 : Int), (501 : Int))] (by decide)).1 (Or.inl rfl)).1⟩

/-! ### C6 — stringified ids: numeric matching, but no carrier-type
preservation.

`idMap[item.id]` with a string id reaches the numeric key through
JavaScript's property-key coercion (modelled by `canonKey`), so the
comparison succeeds exactly on the canonical decimal rendering; the
replacement `{ ...item, id: idMap[item.id] }` however stores the looked-up
*number*, so a string-typed field comes back as a number. -/

/-- **C6, counterexample.** A layout item holding the stringified virtual id
`"-5"` is rewritten under `idMap = {−5 ↦ 7}`, but the rewritten field holds
the number `7`, not the string `"7"`: the original carrier type is not
preserved. -/
theorem C6_carrier_type_counterexample :
    (replaceNegativeIdsInContent
        ⟨none, none, some ⟨some 12, some [⟨JsId.str "-5", 0, 0, 3, 3, "i"⟩]⟩, none, none⟩
        .dashboard [((-5 : Int), (7 : Int))]).layout
      = some ⟨some 12, some [⟨JsId.num 7, 0, 0, 3, 3, "i"⟩]⟩
    ∧ JsId.num 7 ≠ JsId.str "7" := by
  constructor
  · decide
  · decide

/-- **C6, amended.** For every layout item whose id is a string that
canonically denotes a key `k` of `idMap` (mapped to a real id `r`), the
rewriter matches it numerically and rewrites it — but the rewritten field
holds the *number* `r` (`JsId.num r`), not a string: the original carrier
type is not preserved on write. -/
theorem C6_string_id_numeric_match (m : List (Int × Int)) (k r : Int) (s : String)
    (it : LayoutItem) (l : Layout) (its : List LayoutItem) (c : BaseFileContent)
    (hs : it.id = JsId.str s) (hck : canonKey (JsId.str s) = some k)
    (hk : mapLookup m k = some r) (hr : 0 < r)
    (hl : c.layout = some l) (hits : l.items = some its) :
    rewriteItem m it = { it with id := JsId.num r } ∧
    (replaceNegativeIdsInContent c .dashboard m).layout
      = some { l with items := some (its.map (rewriteItem m)) } := by
  constructor
  · have hnz : ¬ r = 0 := by omega
    simp [rewriteItem, jsLookupId, jsTruthyLookup, hs, hck, hk, hnz]
  · simp [replaceNegativeIdsInContent, hl, hits]

/-- Witness for C6 (amended): the concrete item `"-5"` under
`idMap = {−5 ↦ 7}`. -/
theorem C6_string_id_numeric_match_witness :
    ((⟨JsId.str "-5", 0, 0, 3, 3, "i"⟩ : LayoutItem).id = JsId.str "-5" ∧
     canonKey (JsId.str "-5") = some (-5) ∧
     mapLookup [((-5 : Int), (7 : Int))] (-5) = some 7 ∧
     (0 : Int) < 7 ∧
     (⟨none, none, some ⟨some 12, some [⟨JsId.str "-5", 0, 0, 3, 3, "i"⟩]⟩, none, none⟩
        : BaseFileContent).layout
       = some ⟨some 12, some [⟨JsId.str "-5", 0, 0, 3, 3, "i"⟩]⟩) ∧
    (rewriteItem [((-5 : Int), (7 : Int))] ⟨JsId.str "-5", 0, 0, 3, 3, "i"⟩
        = ⟨JsId.num 7, 0, 0, 3, 3, "i"⟩ ∧
     (replaceNegativeIdsInContent
        ⟨none, none, some ⟨some 12, some [⟨JsId.str "-5", 0, 0, 3, 3, "i"⟩]⟩, none, none⟩
        .dashboard [((-5 : Int), (7 : Int))]).layout
       = some ⟨some 12,
          some ([⟨JsId.str "-5", 0, 0, 3, 3, "i"⟩].map
            (rewriteItem [((-5 : Int), (7 : Int))]))⟩) :=
  ⟨⟨rfl, by decide, by decide, by decide, rfl⟩,
   C6_string_id_numeric_match [((-5 : Int), (7 : Int))] (-5) 7 "-5"
     ⟨JsId.str "-5", 0, 0, 3, 3, "i"⟩
     ⟨some 12, some [⟨JsId.str "-5", 0, 0, 3, 3, "i"⟩]⟩
     [⟨JsId.str "-5", 0, 0, 3, 3, "i"⟩]
     ⟨none, none, some ⟨some 12, some [⟨JsId.str "-5", 0, 0, 3, 3, "i"⟩]⟩, none, none⟩
     rfl (by decide) (by decide) (by decide) rfl rfl⟩

/-! ### Content validation (claims C8, C9) -/

/-- A `pivotConfig.values[]` entry `{column, aggFunction}`. -/
structure PivotValueSpec where
  column : String
  aggFunction : String
deriving DecidableEq, Repr

/-- `pivotConfig: {rows, columns, values}` — each possibly absent. -/
structure PivotConfigV where
  rows : Option (List String)
  columns : Option (List String)
  values : Option (List PivotValueSpec)
deriving DecidableEq, Repr

/-- `vizSettings: {type, pivotConfig?, xCols?, yCols?}`. -/
structure VizSettingsV where
  vtype : String
  pivotConfig : Option PivotConfigV
  xCols : Option (List String)
  yCols : Option (List String)
deriving DecidableEq, Repr

/-- `QuestionContent` as the validator sees it (fields possibly `null`). -/
structure QuestionContentV where
  description : Option String
  query : Option String
  database_name : Option String
  vizSettings : VizSettingsV
deriving DecidableEq, Repr

/-- Modelled from the spec: the generated JSON schema
(`atlas-schema.gen.json`) is not among the sources; the visualization kinds
accepted by the schema, taken from §4.1 and the validation tests
(`table`/`bar` accepted, `invalid_chart_type` rejected, `pivot` a known
kind). -/
def knownVizTypes : List String :=
  ["table", "bar", "line", "area", "pie", "scatter", "number", "pivot"]

/-- A `pivotConfig` is complete when `rows`, `columns` and `values` are all
present. -/
def pivotConfigComplete (pc : PivotConfigV) : Bool :=
  pc.rows.isSome && pc.columns.isSome && pc.values.isSome

/-- Modelled from the spec: the structural JSON-schema check for
`QuestionContent` (`atlas-schema.gen.json` is not among the sources) —
`query` and `database_name` required, the visualization type one of the
known kinds, and a present `pivotConfig` required to carry `rows`,
`columns` and `values` (the incomplete-`pivotConfig` rejection of the
tests). -/
def questionSchemaOk (q : QuestionContentV) : Bool :=
  q.query.isSome && q.database_name.isSome &&
  knownVizTypes.contains q.vizSettings.vtype &&
  (match q.vizSettings.pivotConfig with
   | some pc => pivotConfigComplete pc
   | none => true)

/-- `validateContent` for `QuestionContent` (source, end of
`editFile.test.ts`): schema errors first, then the semantic cross-field rule
`viz?.type === 'pivot' && viz?.pivotConfig == null`.  The text of a schema
error is ajv's, modelled as a fixed message. -/
def validateQuestionContent (q : QuestionContentV) : Option String :=
  if questionSchemaOk q = false then some "schema validation failed"
  else if q.vizSettings.vtype = "pivot" && q.vizSettings.pivotConfig.isNone then
    some "vizSettings.pivotConfig is required when type is \"pivot\""
  else none

/-- Modelled from the spec: the asset discriminator kinds the dashboard
schema accepts ("an asset/reference discriminator tag must be one of the
known kinds", §4.1; `chart` rejected, `text` accepted in the tests). -/
def knownAssetTypes : List String := ["question", "text"]

/-- Modelled from the spec: a dashboard asset is schema-valid when its
discriminator is known and a question asset carries an integer id
(a string id is rejected by the tests). -/
def assetOk (a : Asset) : Bool :=
  knownAssetTypes.contains a.atype &&
  (if a.atype = "question" then
     match a.id with
     | some (JsId.num _) => true
     | _ => false
   else true)

/-- Modelled from the spec: "a layout cell's width/height must be ≥ a
minimum of 3 grid units" (§4.1, §6) — validated, not clamped. -/
def layoutItemOk (it : LayoutItem) : Bool :=
  decide (3 ≤ it.w) && decide (3 ≤ it.h)

/-- Modelled from the spec: the structural JSON-schema check for
`DashboardContent` — every asset valid and every layout item at or above the
minimum dimensions. -/
def dashboardSchemaOk (d : BaseFileContent) : Bool :=
  (d.assets.getD []).all assetOk &&
  ((d.layout.bind Layout.items).getD []).all layoutItemOk

/-- `validateContent` for `DashboardContent` (source): schema check only —
the semantic branch of the source applies to questions alone. -/
def validateDashboardContent (d : BaseFileContent) : Option String :=
  if dashboardSchemaOk d = false then some "schema validation failed" else none

/-- A file's content as handed to `validateFileState`. -/
inductive FileContentV where
  | question (q : QuestionContentV)
  | dashboard (d : BaseFileContent)
  | other
deriving DecidableEq, Repr

/-- `validateFileState` (source, end of `editFile.test.ts`): dispatch on the
file type — questions and dashboards are validated, any other type yields no
error. -/
def validateFileState (t : FileType) (content : FileContentV) : Option String :=
  match t, content with
  | .question, .question q => validateQuestionContent q
  | .dashboard, .dashboard d => validateDashboardContent d
  | _, _ => none

/-- Result of an edit: a value, never an exception. -/
structure QuestionEditResult where
  success : Bool
  error : Option String
  stored : QuestionContentV
deriving DecidableEq, Repr

/-- Result of a dashboard edit. -/
structure DashEditResult where
  success : Bool
  error : Option String
  stored : QuestionContentV ⊕ BaseFileContent
deriving DecidableEq, Repr

/-- Modelled from the spec: `editFile`/`editFileStr` of `file-state.ts` are
not among the sources.  Per §4.1/§7 and the tests, the merged content is
validated, a failure is returned as a value whose message is prefixed
`Invalid question content: `, and the (possibly invalid) merged content is
still stored. -/
def editQuestionContent (merged : QuestionContentV) : QuestionEditResult :=
  match validateFileState .question (.question merged) with
  | some e => ⟨false, some ("Invalid question content: " ++ e), merged⟩
  | none => ⟨true, none, merged⟩

/-- Modelled from the spec: the dashboard counterpart of
`editQuestionContent`, with prefix `Invalid dashboard content: `. -/
def editDashboardContent (merged : BaseFileContent) : DashEditResult :=
  match validateFileState .dashboard (.dashboard merged) with
  | some e => ⟨false, some ("Invalid dashboard content: " ++ e), .inr merged⟩
  | none => ⟨true, none, .inr merged⟩

/-- `pat` starts the list `l`. -/
def listStarts : List Char → List Char → Bool
  | [], _ => true
  | _ :: _, [] => false
  | p :: ps, c :: cs => p = c && listStarts ps cs

/-- `pat` occurs somewhere inside `l`. -/
def listHasInfix (pat : List Char) : List Char → Bool
  | [] => listStarts pat []
  | c :: cs => listStarts pat (c :: cs) || listHasInfix pat cs

/-- The error message `s` matches (contains) the pattern `pat`. -/
def strContainsSub (s pat : String) : Bool :=
  listHasInfix pat.data s.data

/-- **C8.** Editing a question's `vizSettings.type` to `'pivot'` without a
`pivotConfig` is rejected with an error returned as a value (the edit result
record, not an exception) whose message matches "pivotConfig is required",
while the same change accompanied by a complete `pivotConfig` (rows, columns,
values all present) is accepted with success. -/
theorem C8_pivot_requires_config (q : QuestionContentV) (pc : PivotConfigV)
    (hq : q.query.isSome = true) (hdb : q.database_name.isSome = true)
    (hpc : pivotConfigComplete pc = true) :
    (editQuestionContent
        { q with vizSettings := { q.vizSettings with vtype := "pivot", pivotConfig := none } }).success
      = false ∧
    (editQuestionContent
        { q with vizSettings := { q.vizSettings with vtype := "pivot", pivotConfig := none } }).error
      = some "Invalid question content: vizSettings.pivotConfig is required when type is \"pivot\"" ∧
    strContainsSub
      "Invalid question content: vizSettings.pivotConfig is required when type is \"pivot\""
      "pivotConfig is required" = true ∧
    (editQuestionContent
        { q with vizSettings := { q.vizSettings with vtype := "pivot", pivotConfig := some pc } }).success
      = true ∧
    (editQuestionContent
        { q with vizSettings := { q.vizSettings with vtype := "pivot", pivotConfig := some pc } }).error
      = none := by
  have hschema1 : questionSchemaOk
      { q with vizSettings := { q.vizSettings with vtype := "pivot", pivotConfig := none } } = true := by
    simp [questionSchemaOk, hq, hdb, knownVizTypes]
  have hschema2 : questionSchemaOk
      { q with vizSettings := { q.vizSettings with vtype := "pivot", pivotConfig := some pc } } = true := by
    simp [questionSchemaOk, hq, hdb, knownVizTypes, hpc]
  refine ⟨?_, ?_, by decide, ?_, ?_⟩ <;>
    simp [editQuestionContent, validateFileState, validateQuestionContent, hschema1, hschema2]

/-- Witness for C8: the test question (`query: SELECT 1`,
`database_name: test_db`) and the full pivot config of the test suite. -/
theorem C8_pivot_requires_config_witness :
    ((⟨none, some "SELECT 1", some "test_db", ⟨"table", none, some [], some []⟩⟩
        : QuestionContentV).query.isSome = true ∧
     (⟨none, some "SELECT 1", some "test_db", ⟨"table", none, some [], some []⟩⟩
        : QuestionContentV).database_name.isSome = true ∧
     pivotConfigComplete
       ⟨some ["region"], some ["year"], some [⟨"revenue", "SUM"⟩]⟩ = true) ∧
    (editQuestionContent
        { (⟨none, some "SELECT 1", some "test_db", ⟨"table", none, some [], some []⟩⟩
            : QuestionContentV) with
          vizSettings := { (⟨"table", none, some [], some []⟩ : VizSettingsV) with
            vtype := "pivot", pivotConfig := none } }).success = false ∧
    (editQuestionContent
        { (⟨none, some "SELECT 1", some "test_db", ⟨"table", none, some [], some []⟩⟩
            : QuestionContentV) with
          vizSettings := { (⟨"table", none, some [], some []⟩ : VizSettingsV) with
            vtype := "pivot",
            pivotConfig := some ⟨some ["region"], some ["year"], some [⟨"revenue", "SUM"⟩]⟩ } }).success
      = true :=
  ⟨⟨rfl, rfl, by decide⟩,
   (C8_pivot_requires_config
      ⟨none, some "SELECT 1", some "test_db", ⟨"table", none, some [], some []⟩⟩
      ⟨some ["region"], some ["year"], some [⟨"revenue", "SUM"⟩]⟩
      rfl rfl (by decide)).1,
   (C8_pivot_requires_config
      ⟨none, some "SELECT 1", some "test_db", ⟨"table", none, some [], some []⟩⟩
      ⟨some ["region"], some ["year"], some [⟨"revenue", "SUM"⟩]⟩
      rfl rfl (by decide)).2.2.2.1⟩

/-- **C9.** For a dashboard whose assets are valid, an edit producing a
layout item with width or height below the minimum of 3 grid units is
rejected by validation with an error result — the stored pending content is
the unmodified (unclamped) input — while edits whose items all have
dimensions at or above 3 are accepted. -/
theorem C9_layout_min_dimensions (d : BaseFileContent) (l : Layout)
    (its : List LayoutItem)
    (hassets : (d.assets.getD []).all assetOk = true)
    (hl : d.layout = some l) (hits : l.items = some its) :
    ((∃ it ∈ its, it.w < 3 ∨ it.h < 3) →
      (editDashboardContent d).success = false ∧
      (editDashboardContent d).error.isSome = true ∧
      (editDashboardContent d).stored = Sum.inr d) ∧
    ((∀ it ∈ its, 3 ≤ it.w ∧ 3 ≤ it.h) →
      (editDashboardContent d).success = true ∧
      (editDashboardContent d).error = none) := by
  have hitems : ((d.layout.bind Layout.items).getD []) = its := by
    simp [hl, Option.bind, hits]
  constructor
  · rintro ⟨it, hin, hbad⟩
    have hallf : its.all layoutItemOk = false := by
      rw [List.all_eq_false]
      refine ⟨it, hin, ?_⟩
      simp [layoutItemOk]
      omega
    have hso : dashboardSchemaOk d = false := by
      simp [dashboardSchemaOk, hitems, hallf]
    simp [editDashboardContent, validateFileState, validateDashboardContent, hso]
  · intro hall
    have hallt : its.all layoutItemOk = true := by
      rw [List.all_eq_true]
      intro it hin
      have := hall it hin
      simp [layoutItemOk]
      omega
    have hso : dashboardSchemaOk d = true := by
      simp only [dashboardSchemaOk, hitems, Bool.and_eq_true]
      exact ⟨hassets, hallt⟩
    simp [editDashboardContent, validateFileState, validateDashboardContent, hso]

/-- Witness for C9: the test dashboard (one question asset, one layout item)
with `w = 1`. -/
theorem C9_layout_min_dimensions_witness :
    (((⟨none, some [⟨"question", some (JsId.num 99), "a"⟩],
        some ⟨some 12, some [⟨JsId.num 99, 0, 0, 1, 4, "i"⟩]⟩, none, none⟩
         : BaseFileContent).assets.getD []).all assetOk = true ∧
     (⟨none, some [⟨"question", some (JsId.num 99), "a"⟩],
        some ⟨some 12, some [⟨JsId.num 99, 0, 0, 1, 4, "i"⟩]⟩, none, none⟩
         : BaseFileContent).layout
       = some ⟨some 12, some [⟨JsId.num 99, 0, 0, 1, 4, "i"⟩]⟩ ∧
     (∃ it ∈ [(⟨JsId.num 99, 0, 0, 1, 4, "i"⟩ : LayoutItem)], it.w < 3 ∨ it.h < 3)) ∧
    ((editDashboardContent
        ⟨none, some [⟨"question", some (JsId.num 99), "a"⟩],
         some ⟨some 12, some [⟨JsId.num 99, 0, 0, 1, 4, "i"⟩]⟩, none, none⟩).success = false ∧
     (editDashboardContent
        ⟨none, some [⟨"question", some (JsId.num 99), "a"⟩],
         some ⟨some 12, some [⟨JsId.num 99, 0, 0, 1, 4, "i"⟩]⟩, none, none⟩).error.isSome = true ∧
     (editDashboardContent
        ⟨none, some [⟨"question", some (JsId.num 99), "a"⟩],
         some ⟨some 12, some [⟨JsId.num 99, 0, 0, 1, 4, "i"⟩]⟩, none, none⟩).stored
       = Sum.inr ⟨none, some [⟨"question", some (JsId.num 99), "a"⟩],
           some ⟨some 12, some [⟨JsId.num 99, 0, 0, 1, 4, "i"⟩]⟩, none, none⟩) :=
  ⟨⟨by decide, rfl, by decide⟩,
   (C9_layout_min_dimensions
      ⟨none, some [⟨"question", some (JsId.num 99), "a"⟩],
       some ⟨some 12, some [⟨JsId.num 99, 0, 0, 1, 4, "i"⟩]⟩, none, none⟩
      ⟨some 12, some [⟨JsId.num 99, 0, 0, 1, 4, "i"⟩]⟩
      [⟨JsId.num 99, 0, 0, 1, 4, "i"⟩]
      (by decide) rfl rfl).1 (by decide)⟩

/-! ### The Edit-State Tracker and the Publish Orchestrator (claims C2–C5)

The orchestrator (`publishAll` of `file-state.ts`) and the tracker slice are
not among the sources — only their E2E test is.  They are modelled from the
spec (§3, §4.1, §4.4): dirty snapshot, partition into virtual/real, one
batch-create, reference rewrite with the resulting id map (the rewriter *is*
the source function above), one batch-save, then clearing. -/

/-- Deep-merge at one field: a key present in the patch wins (arrays replace,
they are not concatenated). -/
def oMerge {α : Type} : Option α → Option α → Option α
  | some a, _ => some a
  | none, b => b

/-- Modelled from the spec: deep-merge of a pending patch into base content
(Invariant I3; §9 "arrays in a patch fully replace the base array"); the
`layout` object is merged field by field, everything else key-wise. -/
def mergeContent (base patch : BaseFileContent) : BaseFileContent :=
  { description := oMerge patch.description base.description
    assets := oMerge patch.assets base.assets
    layout :=
      match patch.layout, base.layout with
      | some pl, some bl => some { columns := oMerge pl.columns bl.columns,
                                   items := oMerge pl.items bl.items }
      | some pl, none => some pl
      | none, bl => bl
    references := oMerge patch.references base.references
    questionId := oMerge patch.questionId base.questionId }

/-- A tracker record: a document's id, kind, last-persisted content and the
sparse pending patch (`none` fields are absent keys). -/
structure FileRec where
  id : Int
  ftype : FileType
  name : String
  baseContent : BaseFileContent
  pending : BaseFileContent
deriving DecidableEq, Repr

/-- The empty pending patch. -/
def emptyPatch : BaseFileContent := ⟨none, none, none, none, none⟩

/-- The patch has at least one key (presence, not truthiness, signals
dirtiness — Invariant I1). -/
def patchHasKeys (p : BaseFileContent) : Bool :=
  p.description.isSome || p.assets.isSome || p.layout.isSome ||
  p.references.isSome || p.questionId.isSome

/-- A record is dirty iff its pending patch has at least one key. -/
def isDirtyRec (r : FileRec) : Bool := patchHasKeys r.pending

/-- `listDirty()`: all dirty records in insertion order. -/
def listDirty (st : List FileRec) : List FileRec := st.filter isDirtyRec

/-- A network call issued during a publish. -/
inductive NetCall where
  | create (items : List (Int × FileType × BaseFileContent))
  | save (items : List (Int × BaseFileContent))
deriving DecidableEq, Repr

/-- The dirty documents with virtual (negative) ids. -/
def toCreateOf (st : List FileRec) : List FileRec :=
  (listDirty st).filter (fun r => decide (r.id < 0))

/-- The dirty documents with real (positive) ids. -/
def toUpdateOf (st : List FileRec) : List FileRec :=
  (listDirty st).filter (fun r => decide (0 < r.id))

/-- The virtual-to-real id map produced by the batch-create response;
`alloc` abstracts the Document Store's id assignment. -/
def idMapOf (alloc : Int → Int) (st : List FileRec) : List (Int × Int) :=
  (toCreateOf st).map (fun r => (r.id, alloc r.id))

/-- Modelled from the spec: the Clearing step (§4.4 step 6) applied to one
record — a dirty virtual document is re-keyed under its real id with its
full merged content persisted as the new base; a dirty real document gets
its base refreshed with the merge of its rewritten pending patch; clean
records are untouched. -/
def clearRec (alloc : Int → Int) (idMap : List (Int × Int)) (r : FileRec) :
    FileRec :=
  if isDirtyRec r then
    if r.id < 0 then
      { r with id := alloc r.id,
               baseContent := mergeContent r.baseContent r.pending,
               pending := emptyPatch }
    else
      { r with
          baseContent :=
            mergeContent r.baseContent
              (replaceNegativeIdsInContent r.pending r.ftype idMap),
          pending := emptyPatch }
  else r

/-- Modelled from the spec: `publishAll` (§4.4, the implementation in
`file-state.ts` is not among the sources).  Steps: snapshot `listDirty` and
terminate as a no-op when empty; partition into `toCreate`/`toUpdate`; one
batch-create when `toCreate` is non-empty, yielding the id map; rewrite every
`toUpdate` document's pending patch with the source rewriter; one batch-save
when `toUpdate` is non-empty; then clear pending changes, refresh
`baseContent` from the persisted content and re-key created documents under
their real ids.  Returns the network calls in issue order and the final
tracker state. -/
def publishAll (alloc : Int → Int) (st : List FileRec) :
    List NetCall × List FileRec :=
  if listDirty st = [] then ([], st)
  else
    let toCreate := toCreateOf st
    let toUpdate := toUpdateOf st
    let idMap := idMapOf alloc st
    let createCalls :=
      if toCreate = [] then [] else
        [NetCall.create
          (toCreate.map (fun r => (r.id, r.ftype, mergeContent r.baseContent r.pending)))]
    let saveCalls :=
      if toUpdate = [] then [] else
        [NetCall.save
          (toUpdate.map
            (fun r => (r.id, replaceNegativeIdsInContent r.pending r.ftype idMap)))]
    (createCalls ++ saveCalls, st.map (clearRec alloc idMap))

/-- **C4.** For every tracker state in which no document has a non-empty set
of pending changes, `publishAll` makes zero network calls and resolves as a
true no-op (the tracker state is returned unchanged). -/
theorem C4_noop_when_clean (alloc : Int → Int) (st : List FileRec)
    (h : ∀ r ∈ st, patchHasKeys r.pending = false) :
    publishAll alloc st = ([], st) := by
  have hd : listDirty st = [] := by
    rw [listDirty, List.filter_eq_nil_iff]
    intro r hr
    simp [isDirtyRec, h r hr]
  simp [publishAll, hd]

/-- Witness for C4: a tracker holding one clean question. -/
theorem C4_noop_when_clean_witness :
    (∀ r ∈ [(⟨101, .question, "q1", ⟨some "d", none, none, none, none⟩, emptyPatch⟩ : FileRec)],
       patchHasKeys r.pending = false) ∧
    publishAll (fun _ => 501)
        [⟨101, .question, "q1", ⟨some "d", none, none, none, none⟩, emptyPatch⟩]
      = ([], [⟨101, .question, "q1", ⟨some "d", none, none, none, none⟩, emptyPatch⟩]) :=
  ⟨by decide,
   C4_noop_when_clean (fun _ => 501)
     [⟨101, .question, "q1", ⟨some "d", none, none, none, none⟩, emptyPatch⟩]
     (by decide)⟩

/-- **C3.** For every publish over a dirty snapshot holding exactly one
virtual document and at least one real one, `publishAll` issues exactly one
batch-create call and exactly one batch-save call — the call list is
literally `[create, save]`, never one call per document — with the create
preceding the save. -/
theorem C3_bounded_ordered_calls (alloc : Int → Int) (st : List FileRec)
    (v : FileRec) (hv : toCreateOf st = [v]) (hu : toUpdateOf st ≠ []) :
    (publishAll alloc st).1
      = [NetCall.create
           [(v.id, v.ftype, mergeContent v.baseContent v.pending)],
         NetCall.save
           ((toUpdateOf st).map
             (fun r => (r.id, replaceNegativeIdsInContent r.pending r.ftype
                               (idMapOf alloc st))))] := by
  have hvmem : v ∈ listDirty st := by
    have : v ∈ toCreateOf st := by rw [hv]; exact List.mem_singleton.mpr rfl
    exact (List.mem_filter.mp this).1
  have hne : ¬ listDirty st = [] := by
    intro h0
    rw [h0] at hvmem
    exact absurd hvmem (List.not_mem_nil v)
  simp [publishAll, hne, hv, hu]

/-- Witness for C3: one dirty virtual question and one dirty real question. -/
theorem C3_bounded_ordered_calls_witness :
    (toCreateOf
        [⟨-5, .question, "new", emptyPatch, ⟨some "brand new", none, none, none, none⟩⟩,
         ⟨101, .question, "q1", ⟨some "old", none, none, none, none⟩,
           ⟨some "upd", none, none, none, none⟩⟩]
      = [⟨-5, .question, "new", emptyPatch, ⟨some "brand new", none, none, none, none⟩⟩] ∧
     toUpdateOf
        [⟨-5, .question, "new", emptyPatch, ⟨some "brand new", none, none, none, none⟩⟩,
         ⟨101, .question, "q1", ⟨some "old", none, none, none, none⟩,
           ⟨some "upd", none, none, none, none⟩⟩] ≠ []) ∧
    (publishAll (fun _ => 501)
        [⟨-5, .question, "new", emptyPatch, ⟨some "brand new", none, none, none, none⟩⟩,
         ⟨101, .question, "q1", ⟨some "old", none, none, none, none⟩,
           ⟨some "upd", none, none, none, none⟩⟩]).1
      = [NetCall.create
           [((-5 : Int), FileType.question,
             mergeContent emptyPatch ⟨some "brand new", none, none, none, none⟩)],
         NetCall.save
           ((toUpdateOf
              [⟨-5, .question, "new", emptyPatch, ⟨some "brand new", none, none, none, none⟩⟩,
               ⟨101, .question, "q1", ⟨some "old", none, none, none, none⟩,
                 ⟨some "upd", none, none, none, none⟩⟩]).map
             (fun r => (r.id, replaceNegativeIdsInContent r.pending r.ftype
               (idMapOf (fun _ => 501)
                 [⟨-5, .question, "new", emptyPatch, ⟨some "brand new", none, none, none, none⟩⟩,
                  ⟨101, .question, "q1", ⟨some "old", none, none, none, none⟩,
                    ⟨some "upd", none, none, none, none⟩⟩]))))] :=
  ⟨⟨by decide, by decide⟩,
   C3_bounded_ordered_calls (fun _ => 501)
     [⟨-5, .question, "new", emptyPatch, ⟨some "brand new", none, none, none, none⟩⟩,
      ⟨101, .question, "q1", ⟨some "old", none, none, none, none⟩,
        ⟨some "upd", none, none, none, none⟩⟩]
     ⟨-5, .question, "new", emptyPatch, ⟨some "brand new", none, none, none, none⟩⟩
     (by decide) (by decide)⟩

/-- **C5.** After a publish, every document of the tracker is clean
(`listDirty` of the resulting state is empty — in particular no document of
the original dirty snapshot remains dirty), and every real-id document of
the snapshot ends with its pending patch cleared and `baseContent` equal to
the persisted content: the merge of its old base with its rewritten pending
patch. -/
theorem C5_clean_state_postcondition (alloc : Int → Int) (st : List FileRec) :
    listDirty (publishAll alloc st).2 = [] ∧
    (∀ r ∈ st, isDirtyRec r = true → 0 < r.id →
      ∃ r2 ∈ (publishAll alloc st).2,
        r2.id = r.id ∧ r2.pending = emptyPatch ∧
        r2.baseContent
          = mergeContent r.baseContent
              (replaceNegativeIdsInContent r.pending r.ftype (idMapOf alloc st))) := by
  by_cases h0 : listDirty st = []
  · constructor
    · simp [publishAll, h0]
    · intro r hr hdirty _
      exfalso
      have : r ∈ listDirty st := List.mem_filter.mpr ⟨hr, hdirty⟩
      rw [h0] at this
      exact absurd this (List.not_mem_nil r)
  · have hsnd : (publishAll alloc st).2 = st.map (clearRec alloc (idMapOf alloc st)) := by
      simp [publishAll, h0]
    constructor
    · rw [hsnd, listDirty, List.filter_eq_nil_iff]
      intro a ha
      rcases List.mem_map.mp ha with ⟨r, hr, rfl⟩
      unfold clearRec
      by_cases hdr : isDirtyRec r = true
      · rw [if_pos hdr]
        by_cases hneg : r.id < 0
        · rw [if_pos hneg]
          simp [isDirtyRec, patchHasKeys, emptyPatch]
        · rw [if_neg hneg]
          simp [isDirtyRec, patchHasKeys, emptyPatch]
      · rw [if_neg hdr]
        exact hdr
    · intro r hr hdirty hpos
      have hne2 : ¬ r.id < 0 := by omega
      refine ⟨clearRec alloc (idMapOf alloc st) r, ?_, ?_, ?_, ?_⟩
      · rw [hsnd]
        exact List.mem_map_of_mem _ hr
      · unfold clearRec
        rw [if_pos hdirty, if_neg hne2]
      · unfold clearRec
        rw [if_pos hdirty, if_neg hne2]
      · unfold clearRec
        rw [if_pos hdirty, if_neg hne2]

/-- Witness for C5: one dirty real question; after the publish the tracker
is clean and its base holds the merged persisted content. -/
theorem C5_clean_state_postcondition_witness :
    listDirty
        (publishAll (fun _ => 501)
          [⟨101, .question, "q1", ⟨some "old", none, none, none, none⟩,
             ⟨some "upd", none, none, none, none⟩⟩]).2 = [] ∧
    ∃ r2 ∈ (publishAll (fun _ => 501)
          [⟨101, .question, "q1", ⟨some "old", none, none, none, none⟩,
             ⟨some "upd", none, none, none, none⟩⟩]).2,
      r2.id = (101 : Int) ∧ r2.pending = emptyPatch ∧
      r2.baseContent
        = mergeContent ⟨some "old", none, none, none, none⟩
            (replaceNegativeIdsInContent ⟨some "upd", none, none, none, none⟩ .question
              (idMapOf (fun _ => 501)
                [⟨101, .question, "q1", ⟨some "old", none, none, none, none⟩,
                   ⟨some "upd", none, none, none, none⟩⟩])) :=
  ⟨(C5_clean_state_postcondition (fun _ => 501)
      [⟨101, .question, "q1", ⟨some "old", none, none, none, none⟩,
         ⟨some "upd", none, none, none, none⟩⟩]).1,
   (C5_clean_state_postcondition (fun _ => 501)
      [⟨101, .question, "q1", ⟨some "old", none, none, none, none⟩,
         ⟨some "upd", none, none, none, none⟩⟩]).2
     ⟨101, .question, "q1", ⟨some "old", none, none, none, none⟩,
        ⟨some "upd", none, none, none, none⟩⟩
     (List.mem_singleton.mpr rfl) (by decide) (by decide)⟩

/-! ### C2 — the published dashboard references the real id and never the
virtual one. -/

/-- The canonical integer key of a possibly absent id field. -/
def optCanon : Option JsId → Option Int
  | some j => canonKey j
  | none => none

/-- The content mentions the integer `n` in some reference field: an asset
id, a layout item id, a reference id (direct or nested), or the `questionId`
scalar. -/
def contentMentions (n : Int) (c : BaseFileContent) : Bool :=
  (c.assets.getD []).any (fun a => decide (optCanon a.id = some n)) ||
  ((c.layout.bind Layout.items).getD []).any (fun it => decide (canonKey it.id = some n)) ||
  (c.references.getD []).any (fun rf =>
    decide (optCanon rf.id = some n) ||
    (match rf.reference with
     | some ir => decide (optCanon ir.id = some n)
     | none => false)) ||
  decide (optCanon c.questionId = some n)

theorem jsLookupId_single (k R : Int) (hR : R ≠ 0) (j : JsId) :
    jsLookupId [(k, R)] j = if canonKey j = some k then some R else none := by
  unfold jsLookupId jsTruthyLookup
  cases hc : canonKey j with
  | none => simp [hc]
  | some k2 =>
    by_cases hk : k2 = k
    · simp [hc, hk, hR, mapLookup]
    · simp [hc, hk, mapLookup]

theorem jsLookupOptId_single (k R : Int) (hR : R ≠ 0) (oj : Option JsId) :
    jsLookupOptId [(k, R)] oj = if optCanon oj = some k then some R else none := by
  cases oj with
  | none => simp [jsLookupOptId, optCanon]
  | some j => simp [jsLookupOptId, optCanon, jsLookupId_single k R hR j]

/-- Under a single-entry id map `{k ↦ R}` with `k < 0 < R`, a rewritten asset
never carries the canonical key `k`, provided every asset carrying `k` is
guarded by `type == 'question'`. -/
theorem rewriteAsset_no_mention (k R : Int) (hkneg : k < 0) (hR : 0 < R)
    (a : Asset) (hg : optCanon a.id = some k → a.atype = "question") :
    ¬ optCanon (rewriteAsset [(k, R)] a).id = some k := by
  unfold rewriteAsset
  rw [jsLookupOptId_single k R (by omega) a.id]
  by_cases hat : a.atype = "question"
  · rw [if_pos hat]
    by_cases hc : optCanon a.id = some k
    · rw [if_pos hc]
      simp [optCanon, canonKey]
      omega
    · rw [if_neg hc]
      simpa using hc
  · rw [if_neg hat]
    by_cases hc : optCanon a.id = some k
    · exact absurd (hg hc) hat
    · exact hc

/-- Under `{k ↦ R}` with `k < 0 < R`, a rewritten layout item never carries
the canonical key `k`. -/
theorem rewriteItem_no_mention (k R : Int) (hkneg : k < 0) (hR : 0 < R)
    (it : LayoutItem) :
    ¬ canonKey (rewriteItem [(k, R)] it).id = some k := by
  unfold rewriteItem
  rw [jsLookupId_single k R (by omega) it.id]
  by_cases hc : canonKey it.id = some k
  · rw [if_pos hc]
    simp [canonKey]
    omega
  · rw [if_neg hc]
    simpa using hc

/-- A question asset holding `JsId.num k` is rewritten to the real id `R`. -/
theorem rewriteAsset_hit (k R : Int) (hR : R ≠ 0) (a : Asset)
    (hat : a.atype = "question") (haid : a.id = some (JsId.num k)) :
    rewriteAsset [(k, R)] a = { a with id := some (JsId.num R) } := by
  unfold rewriteAsset
  rw [if_pos hat, jsLookupOptId_single k R hR a.id, haid,
    if_pos (show optCanon (some (JsId.num k)) = some k by simp [optCanon, canonKey])]

/-- A layout item whose id canonically denotes `k` is rewritten to the real
id `R`. -/
theorem rewriteItem_hit (k R : Int) (hR : R ≠ 0) (it : LayoutItem)
    (hc : canonKey it.id = some k) :
    rewriteItem [(k, R)] it = { it with id := JsId.num R } := by
  unfold rewriteItem
  rw [jsLookupId_single k R hR it.id, if_pos hc]

/-- **C2.** After a publish that succeeds and whose batch-create consists of
one virtual question `v` referenced by a dirty dashboard `d` (in an asset
entry of type `question` and in a layout item, and nowhere in the persisted
base content), the persisted dashboard content — the dashboard's refreshed
`baseContent` in the post-publish tracker — contains the newly assigned real
id `alloc v.id` in both its asset list and its layout items, and mentions
the virtual (negative) id `v.id` in no reference field. -/
theorem C2_atomic_id_rewrite (alloc : Int → Int) (st : List FileRec)
    (v d : FileRec) (l : Layout) (its : List LayoutItem)
    (hv : toCreateOf st = [v]) (hvneg : v.id < 0) (hR : 0 < alloc v.id)
    (hd : d ∈ st) (hdd : isDirtyRec d = true) (hdp : 0 < d.id)
    (hdt : d.ftype = FileType.dashboard)
    (has : ∃ a ∈ d.pending.assets.getD [],
      a.atype = "question" ∧ a.id = some (JsId.num v.id))
    (hguard : ∀ a ∈ d.pending.assets.getD [],
      optCanon a.id = some v.id → a.atype = "question")
    (hl : d.pending.layout = some l) (hits : l.items = some its)
    (hit : ∃ it ∈ its, canonKey it.id = some v.id)
    (hrefs : d.pending.references = none) (hqid : d.pending.questionId = none)
    (hbase : contentMentions v.id d.baseContent = false) :
    ∃ d2 ∈ (publishAll alloc st).2, d2.id = d.id ∧
      (∃ a ∈ d2.baseContent.assets.getD [],
        a.id = some (JsId.num (alloc v.id))) ∧
      (∃ it ∈ (d2.baseContent.layout.bind Layout.items).getD [],
        it.id = JsId.num (alloc v.id)) ∧
      contentMentions v.id d2.baseContent = false := by
  have hm : idMapOf alloc st = [(v.id, alloc v.id)] := by
    simp [idMapOf, hv]
  have hvmem : v ∈ listDirty st := by
    have : v ∈ toCreateOf st := by rw [hv]; exact List.mem_singleton.mpr rfl
    exact (List.mem_filter.mp this).1
  have hne : ¬ listDirty st = [] := by
    intro h0
    rw [h0] at hvmem
    exact absurd hvmem (List.not_mem_nil v)
  have hsnd : (publishAll alloc st).2 = st.map (clearRec alloc (idMapOf alloc st)) := by
    simp [publishAll, hne]
  -- the rewritten pending patch
  set RW := replaceNegativeIdsInContent d.pending d.ftype (idMapOf alloc st) with hRW
  have hRWval :
      RW = { d.pending with
        assets := some ((d.pending.assets.getD []).map
          (rewriteAsset [(v.id, alloc v.id)])),
        layout := some { l with
          items := some (its.map (rewriteItem [(v.id, alloc v.id)])) } } := by
    rw [hRW, hm, hdt]
    simp [replaceNegativeIdsInContent, hl, hits]
  -- the dashboard's record after clearing
  have hclear : clearRec alloc (idMapOf alloc st) d
      = { d with baseContent := mergeContent d.baseContent RW,
                 pending := emptyPatch } := by
    unfold clearRec
    rw [if_pos hdd, if_neg (by omega : ¬ d.id < 0), hRW]
  refine ⟨clearRec alloc (idMapOf alloc st) d, ?_, ?_, ?_, ?_, ?_⟩
  · rw [hsnd]
    exact List.mem_map_of_mem _ hd
  · rw [hclear]
  · -- the new real id appears in the asset list
    rw [hclear]
    rcases has with ⟨a, hamem, hat, haid⟩
    refine ⟨rewriteAsset [(v.id, alloc v.id)] a, ?_, ?_⟩
    · have : (mergeContent d.baseContent RW).assets
          = some ((d.pending.assets.getD []).map (rewriteAsset [(v.id, alloc v.id)])) := by
        rw [hRWval]
        simp [mergeContent, oMerge]
      rw [this]
      simp only [Option.getD_some]
      exact List.mem_map_of_mem _ hamem
    · rw [rewriteAsset_hit v.id (alloc v.id) (by omega) a hat haid]
  · -- the new real id appears in the layout items
    rw [hclear]
    rcases hit with ⟨it, hitmem, hcit⟩
    refine ⟨rewriteItem [(v.id, alloc v.id)] it, ?_, ?_⟩
    · have : ((mergeContent d.baseContent RW).layout.bind Layout.items).getD []
          = its.map (rewriteItem [(v.id, alloc v.id)]) := by
        rw [hRWval]
        cases hbl : d.baseContent.layout with
        | none => simp [mergeContent, oMerge, hbl, Option.bind]
        | some bl => simp [mergeContent, oMerge, hbl, Option.bind]
      rw [this]
      exact List.mem_map_of_mem _ hitmem
    · rw [rewriteItem_hit v.id (alloc v.id) (by omega) it hcit]
  · -- the virtual id appears nowhere in the persisted content
    rw [hclear]
    have hbase4 := hbase
    simp only [contentMentions, Bool.or_eq_false_iff] at hbase4
    obtain ⟨⟨⟨_, _⟩, hbrefs⟩, hbqid⟩ := hbase4
    have hassets : (mergeContent d.baseContent RW).assets
        = some ((d.pending.assets.getD []).map (rewriteAsset [(v.id, alloc v.id)])) := by
      rw [hRWval]
      simp [mergeContent, oMerge]
    have hlayout : ((mergeContent d.baseContent RW).layout.bind Layout.items).getD []
        = its.map (rewriteItem [(v.id, alloc v.id)]) := by
      rw [hRWval]
      cases hbl : d.baseContent.layout with
      | none => simp [mergeContent, oMerge, hbl, Option.bind]
      | some bl => simp [mergeContent, oMerge, hbl, Option.bind]
    have hrefs2 : (mergeContent d.baseContent RW).references = d.baseContent.references := by
      rw [hRWval]
      simp [mergeContent, oMerge, hrefs]
    have hqid2 : (mergeContent d.baseContent RW).questionId = d.baseContent.questionId := by
      rw [hRWval]
      simp [mergeContent, oMerge, hqid]
    simp only [contentMentions, Bool.or_eq_false_iff, hassets, hlayout, hrefs2, hqid2]
    refine ⟨⟨⟨?_, ?_⟩, hbrefs⟩, hbqid⟩
    · rw [List.any_eq_false]
      simp only [Option.getD_some]
      intro a' ha'
      rcases List.mem_map.mp ha' with ⟨a, hamem, rfl⟩
      simpa using rewriteAsset_no_mention v.id (alloc v.id) hvneg hR a (hguard a hamem)
    · rw [List.any_eq_false]
      intro it' hit'
      rcases List.mem_map.mp hit' with ⟨it, hitmem, rfl⟩
      simpa using rewriteItem_no_mention v.id (alloc v.id) hvneg hR it

/-- Fixture mirroring the E2E test: an edited real question. -/
def e2eQ1 : FileRec :=
  ⟨101, .question, "Revenue Query",
   ⟨some "Revenue by month", none, none, none, none⟩,
   ⟨some "Updated revenue by month", none, none, none, none⟩⟩

/-- Fixture: the dashboard's layout items in its pending patch — the virtual
question's id is stored as a string, as `addQuestionToDashboard` does. -/
def e2eDashItems : List LayoutItem :=
  [⟨JsId.num 101, 0, 0, 6, 4, "i1"⟩, ⟨JsId.str "-5", 6, 0, 6, 4, "i2"⟩]

/-- Fixture: the dashboard's pending layout. -/
def e2eDashLayout : Layout := ⟨some 12, some e2eDashItems⟩

/-- Fixture: the dirty dashboard whose pending assets and layout reference
the virtual question −5. -/
def e2eDash : FileRec :=
  ⟨301, .dashboard, "Analytics Dashboard",
   ⟨some "Analytics overview", some [⟨"question", some (JsId.num 101), "a1"⟩],
    some ⟨some 12, some [⟨JsId.num 101, 0, 0, 6, 4, "i1"⟩]⟩, none, none⟩,
   ⟨none,
    some [⟨"question", some (JsId.num 101), "a1"⟩,
          ⟨"question", some (JsId.num (-5)), "a2"⟩],
    some e2eDashLayout, none, none⟩⟩

/-- Fixture: the virtual question under the negative id −5. -/
def e2eVirtual : FileRec :=
  ⟨-5, .question, "New Question", emptyPatch,
   ⟨some "Brand new question", none, none, none, none⟩⟩

/-- Fixture: the tracker state before the publish. -/
def e2eState : List FileRec := [e2eQ1, e2eDash, e2eVirtual]

/-- Fixture: the Document Store assigns real id 501. -/
def e2eAlloc : Int → Int := fun _ => 501

/-- Witness for C2: publishing the fixture rewires the dashboard to the real
id 501 in assets and layout, and the persisted content never mentions −5. -/
theorem C2_atomic_id_rewrite_witness :
    (toCreateOf e2eState = [e2eVirtual] ∧ e2eVirtual.id < 0 ∧
     0 < e2eAlloc e2eVirtual.id ∧ e2eDash ∈ e2eState ∧
     isDirtyRec e2eDash = true ∧ 0 < e2eDash.id ∧
     e2eDash.ftype = FileType.dashboard ∧
     (∃ a ∈ e2eDash.pending.assets.getD [],
       a.atype = "question" ∧ a.id = some (JsId.num e2eVirtual.id)) ∧
     (∀ a ∈ e2eDash.pending.assets.getD [],
       optCanon a.id = some e2eVirtual.id → a.atype = "question") ∧
     e2eDash.pending.layout = some e2eDashLayout ∧
     e2eDashLayout.items = some e2eDashItems ∧
     (∃ it ∈ e2eDashItems, canonKey it.id = some e2eVirtual.id) ∧
     e2eDash.pending.references = none ∧ e2eDash.pending.questionId = none ∧
     contentMentions e2eVirtual.id e2eDash.baseContent = false) ∧
    (∃ d2 ∈ (publishAll e2eAlloc e2eState).2, d2.id = e2eDash.id ∧
      (∃ a ∈ d2.baseContent.assets.getD [],
        a.id = some (JsId.num (e2eAlloc e2eVirtual.id))) ∧
      (∃ it ∈ (d2.baseContent.layout.bind Layout.items).getD [],
        it.id = JsId.num (e2eAlloc e2eVirtual.id)) ∧
      contentMentions e2eVirtual.id d2.baseContent = false) :=
  ⟨⟨by decide, by decide, by decide, by decide, by decide, by decide, by decide,
    by decide, by decide, rfl, rfl, by decide, rfl, rfl, by decide⟩,
   C2_atomic_id_rewrite e2eAlloc e2eState e2eVirtual e2eDash e2eDashLayout
     e2eDashItems (by decide) (by decide) (by decide) (by decide) (by decide)
     (by decide) (by decide) (by decide) (by decide) rfl rfl (by decide)
     rfl rfl (by decide)⟩

/-! ### C10 — the batch route handlers reject a missing, non-array or empty
`files` field (source: `src/unnamed/part_004` and
`src/frontend/app/api/files/batch-save/route.ts`), and a publish with
nothing to create issues no batch-create call at all. -/

/-- The request body's `files` field as the handler receives it: absent,
present but not an array, or an array of payload items. -/
inductive ReqFiles (α : Type) where
  | missing
  | notArray
  | array (items : List α)
deriving DecidableEq, Repr

/-- A route response: a validation error or success over the processed
items. -/
inductive RouteOutcome (α : Type) where
  | validationError (msg : String)
  | ok (processed : List α)
deriving DecidableEq, Repr

/-- A route call's response together with whether the data layer
(`batchCreateFiles` / `batchSaveFiles`) was invoked at all. -/
structure RouteResult (α : Type) where
  response : RouteOutcome α
  invokedDataLayer : Bool
deriving DecidableEq, Repr

/-- `POST /api/files/batch-create`:
`if (!Array.isArray(files) || files.length === 0) return
ApiErrors.validationError('files must be a non-empty array')`, otherwise
`batchCreateFiles(inputs, user)`. -/
def batchCreateRoute (α : Type) (files : ReqFiles α) : RouteResult α :=
  match files with
  | .array items =>
    if items.length = 0 then ⟨.validationError "files must be a non-empty array", false⟩
    else ⟨.ok items, true⟩
  | _ => ⟨.validationError "files must be a non-empty array", false⟩

/-- `POST /api/files/batch-save`: the same guard, then
`batchSaveFiles(inputs, user)`. -/
def batchSaveRoute (α : Type) (files : ReqFiles α) : RouteResult α :=
  match files with
  | .array items =>
    if items.length = 0 then ⟨.validationError "files must be a non-empty array", false⟩
    else ⟨.ok items, true⟩
  | _ => ⟨.validationError "files must be a non-empty array", false⟩

/-- A network call is a batch-create. -/
def isCreateCall : NetCall → Bool
  | .create _ => true
  | .save _ => false

/-- **C10.** Both batch route handlers return a validation error — and never
invoke the data layer — whenever the request body's `files` field is
missing, not an array, or an empty array; consequently the publish
orchestrator, when its dirty snapshot holds nothing to create, issues no
batch-create call at all rather than sending an empty list. -/
theorem C10_batch_route_validation (α : Type) (alloc : Int → Int)
    (st : List FileRec) (h : toCreateOf st = []) :
    (batchCreateRoute α .missing
        = ⟨.validationError "files must be a non-empty array", false⟩ ∧
     batchCreateRoute α .notArray
        = ⟨.validationError "files must be a non-empty array", false⟩ ∧
     batchCreateRoute α (.array [])
        = ⟨.validationError "files must be a non-empty array", false⟩) ∧
    (batchSaveRoute α .missing
        = ⟨.validationError "files must be a non-empty array", false⟩ ∧
     batchSaveRoute α .notArray
        = ⟨.validationError "files must be a non-empty array", false⟩ ∧
     batchSaveRoute α (.array [])
        = ⟨.validationError "files must be a non-empty array", false⟩) ∧
    (∀ c ∈ (publishAll alloc st).1, isCreateCall c = false) := by
  refine ⟨⟨rfl, rfl, rfl⟩, ⟨rfl, rfl, rfl⟩, ?_⟩
  intro c hc
  by_cases h0 : listDirty st = []
  · simp [publishAll, h0] at hc
  · have hfst : (publishAll alloc st).1
        = (if toUpdateOf st = [] then [] else
            [NetCall.save
              ((toUpdateOf st).map
                (fun r => (r.id, replaceNegativeIdsInContent r.pending r.ftype
                  (idMapOf alloc st))))]) := by
      simp [publishAll, h0, h]
    rw [hfst] at hc
    by_cases h1 : toUpdateOf st = []
    · simp [h1] at hc
    · rw [if_neg h1] at hc
      rcases List.mem_singleton.mp hc with rfl
      rfl

/-- Witness for C10: the tracker holding only the dirty real question of the
fixture has nothing to create. -/
theorem C10_batch_route_validation_witness :
    toCreateOf [e2eQ1] = [] ∧
    (∀ c ∈ (publishAll e2eAlloc [e2eQ1]).1, isCreateCall c = false) :=
  ⟨by decide,
   ((C10_batch_route_validation Nat e2eAlloc [e2eQ1] (by decide)).2.2)⟩

end Minusx
